import Mathlib

/-!
Shallow embedding of the capture-and-transcode pipeline of inkscribe-art.

Embedded source files:
* `src/src/hooks/useAnimationRecorder.ts` (first document, lines 1-136):
  the `useAnimationRecorder` hook — `startRecording`, `stopRecording`,
  the `ondataavailable` chunk handler; and (third document, lines 248-327)
  the `useMp4Converter` hook — `load`, `convertWebMToMp4`, the
  `ffmpeg.on("progress")` handler.
* `src/unnamed/part_001`: the background-image variant of the recorder hook,
  whose `startRecording` awaits the CSS background asset before starting the
  sampling tick (embedded here as `startRecordingBg`).
* `src/unnamed/part_002`: the `Index` page — `handleDownload` with its WebM
  fallback, and the `Textarea` `onChange` handler with `maxChars`.

Binary data (`Blob` contents) is modelled as lists of bytes (`List Nat`);
DOM handles (`MediaRecorder`, the ffmpeg engine instance) are modelled by
numeric identities.  Nondeterministic facts of the browser environment
(whether `getContext("2d")` returns null, whether a constructor throws,
whether the background image loads, whether `ffmpeg.load` succeeds, and the
progress values the engine emits) are passed in explicitly as environment
records, so every run of the embedded code is a pure function of its inputs.
-/

/-- Raw binary data: a sequence of bytes. -/
abbrev Bytes := List Nat

/-- A `Blob`: binary data together with its declared media type
(`new Blob(parts, { type })`). -/
structure Blob where
  data : Bytes
  type : String
deriving Repr, DecidableEq

/-- `Blob.size` — the byte length of the blob, as read by `event.data.size`. -/
def Blob.size (b : Blob) : Nat := b.data.length

/-! ## Frame Sampler & Encoder: `useAnimationRecorder`
From `src/src/hooks/useAnimationRecorder.ts`, lines 1-136. -/

/-- The mutable state held by the `useAnimationRecorder` hook:
`isRecording` (React state), `mediaRecorderRef.current` (the recorder handle,
modelled by its numeric identity) and `chunksRef.current` (the accumulated
compressed chunks, in arrival order). -/
structure RecorderState where
  isRecording : Bool
  mediaRecorderRef : Option Nat
  chunksRef : List Bytes
deriving Repr, DecidableEq

/-- The hook's initial state: not recording, no recorder, no chunks. -/
def initialRecorderState : RecorderState :=
  { isRecording := false, mediaRecorderRef := none, chunksRef := [] }

/-- Environment facts for one `startRecording` call:
whether `canvas.getContext("2d")` returns a context, whether one of the
setup steps inside the `try` block (e.g. the `MediaRecorder` constructor)
throws, and the identity of the freshly created recorder. -/
structure StartEnv where
  ctxAvailable : Bool
  setupThrows : Bool
  freshRecorder : Nat
deriving Repr, DecidableEq

/-- How a `startRecording` call returned.  The source has no error result
at all: `if (!ctx) return;` returns silently, and the `catch` block only
calls `console.error`, so the returned promise always resolves. -/
inductive StartOutcome
  | started
  | noCtx
  | errorLogged
deriving Repr, DecidableEq

/-- `startRecording` (lines 15-93).  Inside a `try`: create a canvas sized
from the element, get its 2d context (`if (!ctx) return;` — a silent early
return), start the capture stream and frame interval, construct the
`MediaRecorder`, then reset `chunksRef.current = []`, install the
`ondataavailable` handler, `mediaRecorder.start()`, store the recorder in
`mediaRecorderRef` and `setIsRecording(true)`.  A thrown setup step is
caught and logged (`console.error`) with the refs untouched, since every
mutation of the refs happens after the last throwing step.  There is no
check of `isRecording`: a second call while recording simply builds a fresh
session, discarding the buffered chunks. -/
def startRecording (env : StartEnv) (st : RecorderState) :
    RecorderState × StartOutcome :=
  if env.ctxAvailable = false then (st, StartOutcome.noCtx)
  else if env.setupThrows = true then (st, StartOutcome.errorLogged)
  else
    ({ isRecording := true,
       mediaRecorderRef := some env.freshRecorder,
       chunksRef := [] },
     StartOutcome.started)

/-- The `ondataavailable` handler (lines 74-78): push the delivered chunk
onto `chunksRef.current` when its size is positive, otherwise drop it. -/
def ondataavailable (chunks : List Bytes) (data : Bytes) : List Bytes :=
  if data.length > 0 then chunks ++ [data] else chunks

/-- Deliver a sequence of encoder chunks, in arrival order, through the
`ondataavailable` handler. -/
def deliverChunks (chunks : List Bytes) (events : List Bytes) : List Bytes :=
  events.foldl ondataavailable chunks

/-- `stopRecording` (lines 95-117).  If there is no recorder or
`isRecording` is false, resolve `null` at once, touching nothing.
Otherwise the `onstop` handler concatenates `chunksRef.current` into one
`Blob` of type `"video/webm"`, clears the chunk buffer, sets
`isRecording := false`, and resolves that single blob. -/
def stopRecording (st : RecorderState) : RecorderState × Option Blob :=
  if st.mediaRecorderRef.isNone || !st.isRecording then (st, none)
  else
    ({ isRecording := false,
       mediaRecorderRef := st.mediaRecorderRef,
       chunksRef := [] },
     some { data := st.chunksRef.flatten, type := "video/webm" })

/-- One full capture session: `startRecording`, then the encoder delivers
`events` (each through `ondataavailable`), then `stopRecording`. -/
def recordSession (env : StartEnv) (st : RecorderState) (events : List Bytes) :
    RecorderState × Option Blob :=
  let st1 := (startRecording env st).1
  stopRecording { st1 with chunksRef := deliverChunks st1.chunksRef events }

/-! ## Background-image recorder variant
From `src/unnamed/part_001`.  Its `startRecording` reads the element's CSS
`backgroundImage` URL, constructs an `Image`, and `await`s a promise that
resolves on `onload` and rejects on `onerror` — all before the frame
interval is installed and the recorder is started.  A rejection is caught
by the surrounding `try`/`catch`, whose handler only logs
(`console.error("Error starting recording:", error)`): the async function
then returns normally, so the caller's `await` observes no error. -/

/-- Environment facts for one `part_001` `startRecording` call: whether
`getContext("2d")` returns a context, whether the background image loads
(its `onload` vs `onerror`), and the identity of the fresh recorder. -/
structure BgStartEnv where
  ctxAvailable : Bool
  bgImageLoads : Bool
  freshRecorder : Nat
deriving Repr, DecidableEq

/-- The exception raised inside the `try` block of `part_001`'s
`startRecording` when the background asset cannot be loaded. -/
inductive StartError
  | bgImageLoadFailed
deriving Repr, DecidableEq

/-- The body of `part_001`'s `startRecording` (lines 16-116), i.e. the
`try` block: silent return when there is no 2d context; a thrown
`bgImageLoadFailed` when the awaited image rejects (lines 38-41); otherwise
the session starts — chunk buffer reset, recorder installed,
`setIsRecording(true)` — and the sampling tick (`setInterval(captureFrame,
1000 / 30)`, line 92) is started.  The returned `Bool` records whether that
tick was started. -/
def startRecordingBody (env : BgStartEnv) (st : RecorderState) :
    Except StartError (RecorderState × Bool) :=
  if env.ctxAvailable = false then Except.ok (st, false)
  else if env.bgImageLoads = false then Except.error StartError.bgImageLoadFailed
  else
    Except.ok
      ({ isRecording := true,
         mediaRecorderRef := some env.freshRecorder,
         chunksRef := [] },
       true)

/-- What one `part_001` `startRecording` call does, as observed by its
caller: the resulting hook state, whether the sampling tick was started,
and whether the returned promise rejected (`errorToCaller`). -/
structure BgStartReport where
  state : RecorderState
  tickStarted : Bool
  errorToCaller : Bool
deriving Repr, DecidableEq

/-- `part_001`'s `startRecording` (lines 15-120): the `try` body wrapped in
the `catch` handler, which logs the error and returns normally — so
`errorToCaller` is false on both paths, and on the error path the hook
state is untouched and no tick runs. -/
def startRecordingBg (env : BgStartEnv) (st : RecorderState) : BgStartReport :=
  match startRecordingBody env st with
  | Except.ok (st2, tick) => { state := st2, tickStarted := tick, errorToCaller := false }
  | Except.error _ => { state := st, tickStarted := false, errorToCaller := false }

/-! ## Transcoding Stage: `useMp4Converter`
From `src/src/hooks/useAnimationRecorder.ts`, lines 248-327. -/

/-- The mutable state of the `useMp4Converter` hook: `ffmpegRef.current`
(the lazily created engine instance, by numeric identity), the
`isConverting` flag, and the last value passed to `setProgress`
(an integer percentage, "0-100" per the interface comment). -/
structure ConverterState where
  ffmpegRef : Option Nat
  isConverting : Bool
  progress : Int
deriving Repr, DecidableEq

/-- The converter hook's initial state. -/
def initialConverterState : ConverterState :=
  { ffmpegRef := none, isConverting := false, progress := 0 }

/-- A failed transcode, as observed by a caller of `convertWebMToMp4`:
either `await ffmpeg.load(...)` rejected, or `ffmpeg.readFile("output.mp4")`
threw because the transcode command produced no output file. -/
inductive TranscodeError
  | engineLoadFailed
  | noOutputFile
deriving Repr, DecidableEq

/-- Environment facts for the engine loader: the identity a freshly
constructed `FFmpeg` instance would have, and whether `ffmpeg.load` (the
fetch of the pinned `@ffmpeg/core@0.12.6` assets) succeeds. -/
structure LoadEnv where
  freshEngine : Nat
  loadSucceeds : Bool
deriving Repr, DecidableEq

/-- `load` (lines 268-287): if `ffmpegRef.current` is set, return it at
once; otherwise construct a new `FFmpeg`, attach the progress handler,
`await ffmpeg.load(...)` from the version-pinned core URL, store the
instance in `ffmpegRef` and return it.  A failed `load` propagates as a
rejection with `ffmpegRef` still unset.  The returned `Bool` records
whether initialization ran. -/
def load (env : LoadEnv) (st : ConverterState) :
    ConverterState × Except TranscodeError Nat × Bool :=
  match st.ffmpegRef with
  | some e => (st, Except.ok e, false)
  | none =>
    if env.loadSucceeds then
      ({ st with ffmpegRef := some env.freshEngine },
       Except.ok env.freshEngine, true)
    else (st, Except.error TranscodeError.engineLoadFailed, true)

/-- `Math.round` as JavaScript defines it: `⌊x + 1/2⌋`. -/
def jsRound (q : ℚ) : ℤ := ⌊q + 1 / 2⌋

/-- The `ffmpeg.on("progress")` handler (lines 272-275): each engine
progress event carries a fraction `p` ("progress is 0..1") and the handler
stores `Math.round(p * 100)` via `setProgress`. -/
def setProgressOnEvent (p : ℚ) : ℤ := jsRound (p * 100)

/-- Modelled from the spec: the external transcoding engine invoked by
`ffmpeg.exec` is `@ffmpeg/core` (not part of this repository), so its
behavior is taken from spec §4.2 and §8 — on valid non-empty input the
transcode command produces a single complete output file; on empty or
malformed input the command errors and no output file is written (so the
subsequent `readFile("output.mp4")` throws).  The actual transcoded bytes
are engine-internal and irrelevant to the claims; they are represented by
the input bytes passed through. -/
def engineExec (input : Bytes) : Option Bytes :=
  if input.length = 0 then none else some input

/-- Everything one `convertWebMToMp4` call produces: the final hook state,
the successive values taken by the `progress` state during the call
(`emitted`), and the settled promise. -/
structure ConvertResult where
  state : ConverterState
  emitted : List Int
  result : Except TranscodeError Blob
deriving Repr

/-- `convertWebMToMp4` (lines 289-321): `setIsConverting(true)`;
`setProgress(0)`; then in a `try`: `load()` (a rejection propagates),
write the source bytes to `input.webm`, run the transcode command — during
which the engine emits the progress fractions `ps`, each stored through
`setProgressOnEvent` — and read back `output.mp4` (throwing when the
command produced none) wrapped as a `"video/mp4"` blob; and in the
`finally`: `setIsConverting(false)` on every path. -/
def convertWebMToMp4 (env : LoadEnv) (ps : List ℚ) (st : ConverterState)
    (blob : Blob) : ConvertResult :=
  let st0 : ConverterState := { st with isConverting := true, progress := 0 }
  match load env st0 with
  | (st1, Except.error e, _) =>
      { state := { st1 with isConverting := false },
        emitted := [0],
        result := Except.error e }
  | (st1, Except.ok _, _) =>
      let outs := ps.map setProgressOnEvent
      let st2 : ConverterState := { st1 with progress := outs.getLastD 0 }
      match engineExec blob.data with
      | none =>
          { state := { st2 with isConverting := false },
            emitted := 0 :: outs,
            result := Except.error TranscodeError.noOutputFile }
      | some out =>
          { state := { st2 with isConverting := false },
            emitted := 0 :: outs,
            result := Except.ok { data := out, type := "video/mp4" } }

/-! ## Index page
From `src/unnamed/part_002`. -/

/-- One invocation of `downloadRecording(blob, filename)`. -/
structure DownloadAction where
  blob : Blob
  filename : String
deriving Repr, DecidableEq

/-- `handleDownload` (`part_002` lines 150-173): with no `videoBlob`, show
an error toast and return with no download.  Otherwise `await
convertWebMToMp4(videoBlob)`; on success download the MP4 under a
timestamped `.mp4` name; on rejection the `catch` block downloads the
original `videoBlob` under the same timestamped name with its native
`.webm` extension.  `ts` stands for the sanitized ISO timestamp. -/
def handleDownload (env : LoadEnv) (ps : List ℚ) (cst : ConverterState)
    (ts : String) (videoBlob : Option Blob) :
    ConverterState × List DownloadAction :=
  match videoBlob with
  | none => (cst, [])
  | some vb =>
    let r := convertWebMToMp4 env ps cst vb
    match r.result with
    | Except.ok mp4 =>
        (r.state, [{ blob := mp4, filename := "typewriter-animation-" ++ ts ++ ".mp4" }])
    | Except.error _ =>
        (r.state, [{ blob := vb, filename := "typewriter-animation-" ++ ts ++ ".webm" }])

/-- `maxChars` (`part_002` line 35). -/
def maxChars : Nat := 200

/-- The `Textarea` `onChange` handler (`part_002` lines 271-278):
`setText(e.target.value.slice(0, maxChars))` — the entered value is
truncated to `maxChars` characters before being stored.  Strings are
modelled as lists of their characters. -/
def textOnChange (value : List Char) : List Char :=
  value.take maxChars

/-! ## Theorems -/

/-- Folding encoder deliveries through `ondataavailable` appends exactly the
positive-size chunks, in arrival order. -/
theorem deliverChunks_eq (acc : List Bytes) (events : List Bytes) :
    deliverChunks acc events = acc ++ events.filter (fun c => c.length > 0) := by
  induction events generalizing acc with
  | nil => simp [deliverChunks]
  | cons e es ih =>
    show deliverChunks (ondataavailable acc e) es = _
    rw [ih (ondataavailable acc e)]
    by_cases h : e.length > 0
    · simp [ondataavailable, h, List.filter_cons]
    · simp [ondataavailable, h, List.filter_cons]

/-- Concrete environment for witnesses: a 2d context is available, no setup
step throws, and the fresh recorder has identity 2. -/
def envW : StartEnv :=
  { ctxAvailable := true, setupThrows := false, freshRecorder := 2 }

/-- A state in the middle of a recording session: `isRecording` is set, a
recorder is installed, and two chunks have been buffered. -/
def recStateC2 : RecorderState :=
  { isRecording := true, mediaRecorderRef := some 1, chunksRef := [[7], [8]] }

/-- C1: for every successful capture session, `stopRecording` produces
exactly one payload — the concatenation, in arrival order with no
reordering and no gaps, of exactly the non-empty chunks the encoder
delivered during the session — tagged with media type `"video/webm"`. -/
theorem recordSession_single_ordered_payload (env : StartEnv)
    (st : RecorderState) (events : List Bytes)
    (h1 : env.ctxAvailable = true) (h2 : env.setupThrows = false) :
    (recordSession env st events).2 =
      some { data := (events.filter (fun c => c.length > 0)).flatten,
             type := "video/webm" } := by
  simp [recordSession, startRecording, h1, h2, stopRecording, deliverChunks_eq]

/-- Witness for C1: a concrete session whose encoder delivers `[1]`, an
empty chunk, then `[2, 3]` yields the single payload `[1, 2, 3]` tagged
`"video/webm"`. -/
theorem recordSession_single_ordered_payload_witness :
    envW.ctxAvailable = true ∧ envW.setupThrows = false ∧
    (recordSession envW initialRecorderState [[1], [], [2, 3]]).2 =
      some { data := [1, 2, 3], type := "video/webm" } :=
  ⟨rfl, rfl,
    (recordSession_single_ordered_payload envW initialRecorderState
      [[1], [], [2, 3]] rfl rfl).trans (by decide)⟩

/-- Counterexample to C2: with a session already `Recording` (recorder 1
installed, chunks `[[7], [8]]` buffered), a second `startRecording` does
not fail — it returns `started`, and the first session is destroyed: its
buffered chunks are reset to `[]` and its recorder handle is replaced.
No `AlreadyRecordingError` exists anywhere in the source. -/
theorem startRecording_while_recording_cex :
    recStateC2.isRecording = true ∧
    recStateC2.chunksRef = [[7], [8]] ∧
    (startRecording envW recStateC2).2 = StartOutcome.started ∧
    (startRecording envW recStateC2).1.chunksRef = [] ∧
    (startRecording envW recStateC2).1.mediaRecorderRef = some 2 := by
  decide

/-- C2 (amended): calling `startRecording` while a session is `Recording`
does not fail with any error — it silently starts a fresh session,
resetting the chunk buffer to empty and replacing the recorder handle, so
the first session is abandoned and its buffered output discarded. -/
theorem startRecording_while_recording_restarts (env : StartEnv)
    (st : RecorderState) (h1 : env.ctxAvailable = true)
    (h2 : env.setupThrows = false) (_h3 : st.isRecording = true) :
    startRecording env st =
      ({ isRecording := true, mediaRecorderRef := some env.freshRecorder,
         chunksRef := [] }, StartOutcome.started) := by
  simp [startRecording, h1, h2]

/-- Witness for the amended C2 at the concrete mid-recording state. -/
theorem startRecording_while_recording_restarts_witness :
    envW.ctxAvailable = true ∧ envW.setupThrows = false ∧
    recStateC2.isRecording = true ∧
    startRecording envW recStateC2 =
      ({ isRecording := true, mediaRecorderRef := some 2, chunksRef := [] },
       StartOutcome.started) :=
  ⟨rfl, rfl, rfl,
    (startRecording_while_recording_restarts envW recStateC2 rfl rfl rfl).trans
      (by decide)⟩

/-- C6: whenever no session is `Recording`, `stopRecording` resolves `null`
without error and leaves the stored recorder state unchanged. -/
theorem stopRecording_idle_noop (st : RecorderState)
    (h : st.isRecording = false) :
    stopRecording st = (st, none) := by
  simp [stopRecording, h]

/-- Witness for C6 at the hook's initial (idle) state. -/
theorem stopRecording_idle_noop_witness :
    initialRecorderState.isRecording = false ∧
    stopRecording initialRecorderState = (initialRecorderState, none) :=
  ⟨rfl, stopRecording_idle_noop initialRecorderState rfl⟩

/-- Concrete environment in which the backing background asset fails to
load while a 2d context is available. -/
def bgEnvFail : BgStartEnv :=
  { ctxAvailable := true, bgImageLoads := false, freshRecorder := 3 }

/-- Counterexample to C7: when the background asset fails to load, the
`part_001` `startRecording` does not report any error to the caller — the
exception is caught and only logged, so `errorToCaller` is `false` and the
caller's `await` resolves normally, contrary to the claim that `start`
reports an error to the caller. -/
theorem startRecordingBg_failure_unreported_cex :
    bgEnvFail.ctxAvailable = true ∧ bgEnvFail.bgImageLoads = false ∧
    startRecordingBg bgEnvFail initialRecorderState =
      { state := initialRecorderState, tickStarted := false,
        errorToCaller := false } := by
  decide

/-- C7 (amended): if the background asset cannot be loaded at start time,
the session never starts (the hook state is untouched, `isRecording` stays
as it was), the sampling tick is never started, and the caller is not
crashed — but the error is swallowed by the `catch` block (logged only),
not reported through the call's result. -/
theorem startRecordingBg_failure_silent (env : BgStartEnv)
    (st : RecorderState) (h1 : env.ctxAvailable = true)
    (h2 : env.bgImageLoads = false) :
    startRecordingBg env st =
      { state := st, tickStarted := false, errorToCaller := false } := by
  simp [startRecordingBg, startRecordingBody, h1, h2]

/-- Witness for the amended C7 at the concrete failing environment. -/
theorem startRecordingBg_failure_silent_witness :
    bgEnvFail.ctxAvailable = true ∧ bgEnvFail.bgImageLoads = false ∧
    startRecordingBg bgEnvFail recStateC2 =
      { state := recStateC2, tickStarted := false, errorToCaller := false } :=
  ⟨rfl, rfl, startRecordingBg_failure_silent bgEnvFail recStateC2 rfl rfl⟩

/-- Environments for converter witnesses: one whose engine load succeeds
(fresh instance 5) and one whose load would fail (fresh instance 9). -/
def loadEnvW : LoadEnv := { freshEngine := 5, loadSucceeds := true }

/-- A second loader environment, whose own `ffmpeg.load` would fail — used
to show a subsequent `load` call never re-runs initialization. -/
def loadEnvW2 : LoadEnv := { freshEngine := 9, loadSucceeds := false }

/-- C8: the engine is initialized at most once.  After any `load` call that
returned an engine instance `e`, the instance is stored in `ffmpegRef`, and
every subsequent `load` call — under any environment — returns exactly that
instance immediately, with the state unchanged and without re-running
initialization (the `ranInit` component is `false`). -/
theorem load_initializes_at_most_once (st : ConverterState)
    (env env2 : LoadEnv) (e : Nat) (h : (load env st).2.1 = Except.ok e) :
    (load env st).1.ffmpegRef = some e ∧
    load env2 (load env st).1 = ((load env st).1, Except.ok e, false) := by
  cases hst : st.ffmpegRef with
  | some e0 =>
    simp [load, hst] at h
    simp [load, hst, h]
  | none =>
    by_cases hl : env.loadSucceeds
    · simp [load, hst, hl] at h
      simp [load, hst, hl, h]
    · simp [load, hst, hl] at h

/-- Witness for C8: a first successful `load` from the initial state stores
instance 5; a second call (even with an environment whose own load would
fail) returns instance 5 without re-initializing. -/
theorem load_initializes_at_most_once_witness :
    (load loadEnvW initialConverterState).2.1 = Except.ok 5 ∧
    ((load loadEnvW initialConverterState).1.ffmpegRef = some 5 ∧
     load loadEnvW2 (load loadEnvW initialConverterState).1 =
       ((load loadEnvW initialConverterState).1, Except.ok 5, false)) :=
  ⟨rfl, load_initializes_at_most_once initialConverterState loadEnvW loadEnvW2 5 rfl⟩

/-- C3: for every input clip of byte length 0, `convertWebMToMp4` fails
(the promise rejects with a `TranscodeError`) and produces no output
blob. -/
theorem convertWebMToMp4_empty_input_fails (env : LoadEnv) (ps : List ℚ)
    (st : ConverterState) (blob : Blob) (h : blob.size = 0) :
    (convertWebMToMp4 env ps st blob).result.isOk = false := by
  simp only [Blob.size] at h
  unfold convertWebMToMp4
  rcases hld : load env { st with isConverting := true, progress := 0 } with
    ⟨st1, r, ran⟩
  cases r with
  | error e => simp [hld, Except.isOk, Except.toBool]
  | ok eng => simp [hld, engineExec, h, Except.isOk, Except.toBool]

/-- A zero-byte captured clip. -/
def emptyWebM : Blob := { data := [], type := "video/webm" }

/-- Witness for C3 at the zero-byte clip. -/
theorem convertWebMToMp4_empty_input_fails_witness :
    emptyWebM.size = 0 ∧
    (convertWebMToMp4 loadEnvW [] initialConverterState emptyWebM).result.isOk
      = false :=
  ⟨rfl, convertWebMToMp4_empty_input_fails loadEnvW [] initialConverterState
    emptyWebM rfl⟩

/-- C10: every `convertWebMToMp4` call resets the reported progress to 0 at
entry (the first value the `progress` state takes during the call is 0) and
clears `isConverting` in its `finally` block, on the success path and on
every failure path alike. -/
theorem convertWebMToMp4_resets_progress_clears_isConverting (env : LoadEnv)
    (ps : List ℚ) (st : ConverterState) (blob : Blob) :
    (convertWebMToMp4 env ps st blob).state.isConverting = false ∧
    (convertWebMToMp4 env ps st blob).emitted.head? = some 0 := by
  unfold convertWebMToMp4
  rcases hld : load env { st with isConverting := true, progress := 0 } with
    ⟨st1, r, ran⟩
  cases r with
  | error e => simp [hld]
  | ok eng =>
    cases hex : engineExec blob.data with
    | none => simp [hld, hex]
    | some out => simp [hld, hex]

/-- The progress handler is monotone: a larger engine fraction is stored as
a percentage at least as large. -/
theorem setProgressOnEvent_mono {p q : ℚ} (h : p ≤ q) :
    setProgressOnEvent p ≤ setProgressOnEvent q := by
  unfold setProgressOnEvent jsRound
  exact Int.floor_le_floor (by linarith)

/-- A nonnegative engine fraction is stored as a nonnegative percentage. -/
theorem setProgressOnEvent_nonneg {p : ℚ} (h : 0 ≤ p) :
    0 ≤ setProgressOnEvent p := by
  unfold setProgressOnEvent jsRound
  exact Int.le_floor.mpr (by push_cast; linarith)

/-- An engine fraction at most 1 is stored as a percentage at most 100. -/
theorem setProgressOnEvent_le_100 {p : ℚ} (h : p ≤ 1) :
    setProgressOnEvent p ≤ 100 := by
  unfold setProgressOnEvent jsRound
  have h2 : (⌊p * 100 + 1 / 2⌋ : ℤ) < 101 :=
    Int.floor_lt.mpr (by push_cast; linarith)
  omega

/-- A monotone engine signal in [0, 1], passed through the progress handler
after the entry `setProgress(0)`, yields a non-decreasing state trace. -/
theorem emitted_chain (ps : List ℚ) (hb : ∀ p ∈ ps, 0 ≤ p ∧ p ≤ 1)
    (hm : List.Chain' (· ≤ ·) ps) :
    List.Chain' (· ≤ ·) ((0 : ℤ) :: ps.map setProgressOnEvent) := by
  rw [List.chain'_cons']
  refine ⟨?_, List.chain'_map_of_chain' setProgressOnEvent
    (fun a b hab => setProgressOnEvent_mono hab) hm⟩
  intro y hy
  cases ps with
  | nil => simp at hy
  | cons p ps2 =>
    simp only [List.map_cons, List.head?_cons, Option.mem_def,
      Option.some.injEq] at hy
    rw [← hy]
    exact setProgressOnEvent_nonneg (hb p (List.mem_cons_self p ps2)).1

/-- Every value of the progress state trace lies between 0 and 100 when the
engine signal stays in [0, 1]. -/
theorem emitted_range (ps : List ℚ) (hb : ∀ p ∈ ps, 0 ≤ p ∧ p ≤ 1) :
    ∀ x ∈ (0 : ℤ) :: ps.map setProgressOnEvent, 0 ≤ x ∧ x ≤ 100 := by
  intro x hx
  rcases List.mem_cons.mp hx with rfl | hmem
  · omega
  · rcases List.mem_map.mp hmem with ⟨p, hp, rfl⟩
    exact ⟨setProgressOnEvent_nonneg (hb p hp).1,
      setProgressOnEvent_le_100 (hb p hp).2⟩

/-- A concrete non-empty captured clip. -/
def blobW : Blob := { data := [1, 2, 3], type := "video/webm" }

/-- Counterexample to C4: on a concrete `convertWebMToMp4` call during
which the engine emits the in-spec fraction 1/2, the hook's progress side
channel takes the values `[0, 50]` — the handler stores
`Math.round(p * 100)`, so the emitted value 50 does not lie in the interval
[0, 1] as the claim states. -/
theorem progress_value_outside_unit_interval_cex :
    (convertWebMToMp4 loadEnvW [(1 : ℚ) / 2] initialConverterState
      blobW).emitted = [0, 50] ∧ ¬ ((50 : ℤ) ≤ 1) := by
  refine ⟨?_, by decide⟩
  simp only [convertWebMToMp4, load, loadEnvW, initialConverterState,
    engineExec, blobW]
  norm_num [setProgressOnEvent, jsRound, Int.floor_eq_iff]

/-- C4 (amended): during a single `convertWebMToMp4` call, provided the
engine's own progress signal is non-decreasing with fractions in [0, 1]
(the spec's contract for the engine), the sequence of progress values the
hook emits is monotonically non-decreasing and every emitted value lies in
[0, 100] — an integer percentage, not a fraction in [0, 1]. -/
theorem progress_emitted_monotone_percent (env : LoadEnv) (ps : List ℚ)
    (st : ConverterState) (blob : Blob)
    (hb : ∀ p ∈ ps, 0 ≤ p ∧ p ≤ 1)
    (hm : List.Chain' (· ≤ ·) ps) :
    List.Chain' (· ≤ ·) (convertWebMToMp4 env ps st blob).emitted ∧
    ∀ x ∈ (convertWebMToMp4 env ps st blob).emitted, 0 ≤ x ∧ x ≤ 100 := by
  unfold convertWebMToMp4
  rcases hld : load env { st with isConverting := true, progress := 0 } with
    ⟨st1, r, ran⟩
  cases r with
  | error e =>
    simp only [hld]
    refine ⟨by simp, ?_⟩
    intro x hx
    simp only [List.mem_singleton] at hx
    omega
  | ok eng =>
    cases hex : engineExec blob.data with
    | none =>
      simp only [hld, hex]
      exact ⟨emitted_chain ps hb hm, emitted_range ps hb⟩
    | some out =>
      simp only [hld, hex]
      exact ⟨emitted_chain ps hb hm, emitted_range ps hb⟩

/-- Witness for the amended C4: a concrete call whose engine emits the
monotone in-spec signal 1/4 then 1/2. -/
theorem progress_emitted_monotone_percent_witness :
    (∀ p ∈ ([(1 : ℚ) / 4, (1 : ℚ) / 2] : List ℚ), 0 ≤ p ∧ p ≤ 1) ∧
    List.Chain' (· ≤ ·) ([(1 : ℚ) / 4, (1 : ℚ) / 2] : List ℚ) ∧
    (List.Chain' (· ≤ ·) (convertWebMToMp4 loadEnvW
        [(1 : ℚ) / 4, (1 : ℚ) / 2] initialConverterState blobW).emitted ∧
     ∀ x ∈ (convertWebMToMp4 loadEnvW [(1 : ℚ) / 4, (1 : ℚ) / 2]
        initialConverterState blobW).emitted, 0 ≤ x ∧ x ≤ 100) :=
  ⟨by intro p hp; fin_cases hp <;> constructor <;> norm_num,
   by simp [List.chain'_cons, List.chain'_singleton]; norm_num,
   progress_emitted_monotone_percent loadEnvW [(1 : ℚ) / 4, (1 : ℚ) / 2]
     initialConverterState blobW
     (by intro p hp; fin_cases hp <;> constructor <;> norm_num)
     (by simp [List.chain'_cons, List.chain'_singleton]; norm_num)⟩

/-- C5: whenever the MP4 conversion fails, `handleDownload` still performs
exactly one download — the original untranscoded WebM blob, under the
timestamped filename with its native `.webm` extension — so the user is
never left with nothing. -/
theorem handleDownload_webm_fallback (env : LoadEnv) (ps : List ℚ)
    (cst : ConverterState) (ts : String) (vb : Blob)
    (h : (convertWebMToMp4 env ps cst vb).result.isOk = false) :
    (handleDownload env ps cst ts (some vb)).2 =
      [{ blob := vb, filename := "typewriter-animation-" ++ ts ++ ".webm" }] := by
  cases hr : (convertWebMToMp4 env ps cst vb).result with
  | error e => simp [handleDownload, hr]
  | ok b =>
    rw [hr] at h
    simp [Except.isOk, Except.toBool] at h

/-- Witness for C5: the conversion of the zero-byte clip fails, and the
fallback download it triggers is that clip under the `.webm` name. -/
theorem handleDownload_webm_fallback_witness :
    (convertWebMToMp4 loadEnvW [] initialConverterState emptyWebM).result.isOk
      = false ∧
    (handleDownload loadEnvW [] initialConverterState "T" (some emptyWebM)).2 =
      [{ blob := emptyWebM,
         filename := "typewriter-animation-" ++ "T" ++ ".webm" }] :=
  ⟨rfl, handleDownload_webm_fallback loadEnvW [] initialConverterState "T"
    emptyWebM rfl⟩

/-- C9: every change to the message field stores
`e.target.value.slice(0, maxChars)`, so the stored text is the 200-character
truncation of the entered value and never exceeds 200 characters. -/
theorem textOnChange_truncates (value : List Char) :
    (textOnChange value).length ≤ maxChars ∧
    textOnChange value = value.take maxChars := by
  refine ⟨?_, rfl⟩
  simp [textOnChange, List.length_take]
